import Mathlib

/-!
Shallow embedding of the tile orchestration, UDF-execution and stitching
logic of `openeogeotrellis/GeotrellisImageCollection.py`
(class `GeotrellisTimeSeriesImageCollection`), together with proofs of the
behavioural properties claimed for it.

Conventions of the embedding:
* timestamps (`pd.Timestamp` / `instant`) are modelled as integers, only
  their ordering matters to the code under study;
* a distributed tile collection (Spark RDD of key/tile pairs) is modelled
  as a list of pairs; Spark `map` followed by job collection is modelled by
  `mapCollect`, which fails as soon as any task raises;
* numpy cell arrays are opaque payloads of type `a` for the UDF pipeline,
  integer-valued index functions for the stitching engine, and lists of
  rational cell values for the zonal aggregator;
* Python exceptions are modelled with `Except`.
-/

namespace GeoPySpark

/-- Geotrellis cell types; only the constructors the studied code mentions. -/
inductive CellType where
  | float32
  | uint8
  | uint16
  | other (s : String)
deriving DecidableEq, Repr

/-- Models `geopyspark.SpatialKey`: column and row of a tile. -/
structure SpatialKey where
  col : Int
  row : Int
deriving DecidableEq, Repr

/-- Models `geopyspark.SpaceTimeKey`: column, row and instant. -/
structure SpaceTimeKey where
  col : Int
  row : Int
  instant : Int
deriving DecidableEq, Repr

/-- Models `geopyspark.Tile`: a cell payload, a cell type and a nodata value.
The cell payload type is kept abstract for the UDF pipeline since the code
under study never inspects individual cells there. -/
structure Tile (a : Type) where
  cells : a
  cell_type : CellType
  no_data_value : Rat
deriving DecidableEq, Repr

/-- Models the `xarray.DataArray` wrapped in an `openeo_udf` DataCube: a list
of dimension names, the coordinate values of the `t` dimension (empty when
there is no `t` dimension) and the per-instant slices of the payload. For a
cube without `t` dimension the whole payload is the single entry of
`slices`. -/
structure XCube (a : Type) where
  dims : List String
  tcoords : List Int
  slices : List a
deriving DecidableEq, Repr

/-- Models a user supplied UDF source string. `wellFormed` records whether
the Python builtin `compile` accepts the string; the Lean model cannot parse
Python, so the outcome of `compile` is carried as data. -/
structure UdfCode where
  code : String
  wellFormed : Bool
deriving DecidableEq, Repr

/-- Errors raised by the embedded pipeline code. -/
inductive Err where
  /-- Models the SyntaxError raised by the eager `compile(function, ...)`. -/
  | compileError
  /-- Models `ValueError("The provided UDF should return one datacube...")`. -/
  | udfContractViolation
  /-- Models a failure raised while running the user code on a tile. -/
  | execError
  /-- Models the IndexError hit on an empty tile group (`tile_list[0]`). -/
  | indexError
deriving DecidableEq, Repr

/-- Spatial part of a space-time key, models
`gps.SpatialKey(t[0].col, t[0].row)`. -/
def spatialOf (k : SpaceTimeKey) : SpatialKey :=
  ⟨k.col, k.row⟩

/-- Models the Spark `groupByKey` on pairs keyed by spatial key, as used in
`apply_tiles_spatiotemporal.rdd_function`: one group per distinct spatial
key, holding every pair of the collection with that spatial key. -/
def groupBySpatialKey {a : Type} (l : List (SpaceTimeKey × a)) :
    List (SpatialKey × List (SpaceTimeKey × a)) :=
  ((l.map (fun t => spatialOf t.1)).dedup).map
    (fun k => (k, l.filter (fun t => spatialOf t.1 = k)))

/-- Ordering by instant used by `tile_list.sort(key=lambda tup: tup[0].instant)`. -/
def byInstant {a : Type} (x y : SpaceTimeKey × Tile a) : Prop :=
  x.1.instant ≤ y.1.instant

instance {a : Type} : DecidableRel (byInstant (a := a)) :=
  fun x y => inferInstanceAs (Decidable (x.1.instant ≤ y.1.instant))

/-- Models `tile_list.sort(key=lambda tup: tup[0].instant)`: a stable sort of
the group by ascending instant. -/
def sortByInstant {a : Type} (l : List (SpaceTimeKey × Tile a)) :
    List (SpaceTimeKey × Tile a) :=
  l.insertionSort byInstant

/-- Models `_tile_to_datacube` on a stacked 4-dimensional array: since the
input is a stack of banded 3-dimensional tile arrays, `len(shape) == 4`
holds and the temporal branch is taken, giving dims `t, bands, x, y` and the
`t` coordinate populated from `start_times`. -/
def tile_to_datacube_temporal {a : Type} (stacked : List a) (start_times : List Int) :
    XCube a :=
  ⟨["t", "bands", "x", "y"], start_times, stacked⟩

/-- Models `_tile_to_datacube` on one banded 3-dimensional tile array:
`len(shape) == 4` fails and the non-temporal branch is taken. -/
def tile_to_datacube_single {a : Type} (cells : a) : XCube a :=
  ⟨["bands", "x", "y"], [], [cells]⟩

/-- Models the eager `compiled_code = compile(function, 'UDF.py', mode='exec')`
performed by `apply_tiles_spatiotemporal` before building the rdd function:
it raises a SyntaxError for ill-formed code and is otherwise a no-op. -/
def compileCheck (u : UdfCode) : Except Err Unit :=
  if u.wellFormed then Except.ok () else Except.error Err.compileError

/-- Models `run_user_code(function, data)` from `openeogeotrellis.run_udf`
(that module is not part of the sources under study; modelled from the spec:
user code runs on the exchanged datacube and failures inside it, including a
syntax error detected when the string is finally compiled on the worker,
propagate as execution errors). The meaning of the code string is supplied
separately as the function `sem`. -/
def run_user_code {a : Type} (u : UdfCode) (sem : XCube a → List (XCube a))
    (data : XCube a) : Except Err (List (XCube a)) :=
  if u.wellFormed then Except.ok (sem data) else Except.error Err.execError

/-- Input datacube built by `apply_tiles_spatiotemporal.tilefunction` for one
spatial group: tiles sorted by ascending instant, cell arrays stacked, the
`t` coordinate taken from the sorted instants. -/
def st_inputCube {a : Type} (tiles : List (SpaceTimeKey × Tile a)) : XCube a :=
  tile_to_datacube_temporal
    ((sortByInstant tiles).map (fun t => t.2.cells))
    ((sortByInstant tiles).map (fun t => t.1.instant))

/-- Models the access `tile_list[0]`, which raises an IndexError on an
empty list. -/
def headE {b : Type} : List b → Except Err b
  | [] => Except.error Err.indexError
  | x :: _ => Except.ok x

/-- Models the result-arity check shared by both tile functions:
`if len(cubes) != 1: raise ValueError(...)`, then `cubes[0]`. -/
def checkSingleCube {a : Type} (cubes : List (XCube a)) : Except Err (XCube a) :=
  match cubes with
  | [res] => Except.ok res
  | _ => Except.error Err.udfContractViolation

/-- Models the tile reconstruction at the end of
`apply_tiles_spatiotemporal.tilefunction`: a result with a `t` axis is
unstacked into one tile per `t` coordinate; otherwise a single tile keyed
with the wall-clock `now` (passed explicitly here) is produced. Output
tiles are created with cell type FLOAT32 and the nodata value `nd` of the
first tile of the sorted group. -/
def st_make_tiles {a : Type} [Inhabited a] (k : SpatialKey) (nd : Rat) (now : Int)
    (res : XCube a) : List (SpaceTimeKey × Tile a) :=
  if "t" ∈ res.dims then
    (res.tcoords.zip res.slices).map
      (fun ts => (⟨k.col, k.row, ts.1⟩, ⟨ts.2, CellType.float32, nd⟩))
  else
    [(⟨k.col, k.row, now⟩, ⟨res.slices.headI, CellType.float32, nd⟩)]

/-- Models `apply_tiles_spatiotemporal.tilefunction`: sort the group by
instant, read the first sorted tile, stack and hand the group to the user
code, demand exactly one result cube, and rebuild tiles keyed by the
spatial key of the group. -/
def st_tilefunction {a : Type} [Inhabited a] (u : UdfCode)
    (sem : XCube a → List (XCube a)) (now : Int)
    (g : SpatialKey × List (SpaceTimeKey × Tile a)) :
    Except Err (List (SpaceTimeKey × Tile a)) :=
  (headE (sortByInstant g.2)).bind (fun t0 =>
    (run_user_code u sem (st_inputCube g.2)).bind (fun cubes =>
      (checkSingleCube cubes).map
        (fun res => st_make_tiles g.1 t0.2.no_data_value now res)))

/-- Models `apply_tiles.tilefunction`: build the single-tile datacube, hand
it to the user code, demand exactly one result cube, and rebuild a tile at
the same key, inheriting cell type and nodata value from the input tile. -/
def apply_tiles_tilefunction {a : Type} [Inhabited a] (u : UdfCode)
    (sem : XCube a → List (XCube a)) (kt : SpaceTimeKey × Tile a) :
    Except Err (SpaceTimeKey × Tile a) :=
  (run_user_code u sem (tile_to_datacube_single kt.2.cells)).bind (fun cubes =>
    (checkSingleCube cubes).map
      (fun res => (kt.1, ⟨res.slices.headI, kt.2.cell_type, kt.2.no_data_value⟩)))

instance : Inhabited SpatialKey :=
  ⟨⟨0, 0⟩⟩

instance : Inhabited SpaceTimeKey :=
  ⟨⟨0, 0, 0⟩⟩

instance {a : Type} [Inhabited a] : Inhabited (Tile a) :=
  ⟨⟨default, CellType.float32, 0⟩⟩

/-- Models a Spark `map` followed by collecting the job result: the first
failing task fails the whole job. -/
def mapCollect {b c : Type} (f : b → Except Err c) : List b → Except Err (List c)
  | [] => Except.ok []
  | x :: xs =>
    match f x with
    | Except.error e => Except.error e
    | Except.ok y =>
      match mapCollect f xs with
      | Except.error e => Except.error e
      | Except.ok ys => Except.ok (y :: ys)

/-- Models `rdd.convert_data_type(CellType.FLOAT32)` on a collection: every
cell payload is coerced by the floating-point coercion `coerce`, the cell
type becomes FLOAT32, the nodata value is kept. -/
def convert_data_type_level {a : Type} (coerce : a → a)
    (l : List (SpaceTimeKey × Tile a)) : List (SpaceTimeKey × Tile a) :=
  l.map (fun kt => (kt.1, ⟨coerce kt.2.cells, CellType.float32, kt.2.no_data_value⟩))

/-- Models one level of `apply_tiles.rdd_function`: coerce the level to
FLOAT32, then run `tilefunction` on every pair. -/
def apply_tiles {a : Type} [Inhabited a] (coerce : a → a) (u : UdfCode)
    (sem : XCube a → List (XCube a)) (level : List (SpaceTimeKey × Tile a)) :
    Except Err (List (SpaceTimeKey × Tile a)) :=
  mapCollect (apply_tiles_tilefunction u sem) (convert_data_type_level coerce level)

/-- Models one level of `apply_tiles_spatiotemporal.rdd_function`: coerce the
level to FLOAT32, group by spatial key, then run `tilefunction` on every
group. -/
def st_level_job {a : Type} [Inhabited a] (coerce : a → a) (u : UdfCode)
    (sem : XCube a → List (XCube a)) (now : Int)
    (level : List (SpaceTimeKey × Tile a)) :
    Except Err (List (List (SpaceTimeKey × Tile a))) :=
  mapCollect (st_tilefunction u sem now)
    (groupBySpatialKey (convert_data_type_level coerce level))

/-- Models the call-time phase of `apply_tiles_spatiotemporal`: the user
code is compiled eagerly before the deferred per-level job is built. -/
def apply_tiles_spatiotemporal_entry {a : Type} [Inhabited a] (coerce : a → a)
    (u : UdfCode) (sem : XCube a → List (XCube a)) (now : Int) :
    Except Err (List (SpaceTimeKey × Tile a) → Except Err (List (List (SpaceTimeKey × Tile a)))) :=
  match compileCheck u with
  | Except.error e => Except.error e
  | Except.ok _ => Except.ok (st_level_job coerce u sem now)

/-- Models the call-time phase of `apply_tiles`: the deferred per-level job
is built directly, without any eager check of the user code. -/
def apply_tiles_entry {a : Type} [Inhabited a] (coerce : a → a)
    (u : UdfCode) (sem : XCube a → List (XCube a)) :
    Except Err (List (SpaceTimeKey × Tile a) → Except Err (List (SpaceTimeKey × Tile a))) :=
  Except.ok (apply_tiles coerce u sem)

/-- The identity user function: it returns the received datacube unchanged,
as a one-element datacube list. -/
def identity_udf {a : Type} : XCube a → List (XCube a) :=
  fun c => [c]

/-! ### The `reduce_dimension` dispatcher -/

/-- Models the visitor produced by `accept_process_graph` and handed to
`reduce_dimension`: either a `SingleNodeUDFProcessGraphVisitor` (whose
`udf_args.get('udf', None)` is a string or missing) or a
`GeotrellisTileProcessGraphVisitor` with its ordered dict of process
names. -/
inductive Visitor where
  | singleNodeUdf (udf : Option String)
  | tileGraph (processes : List String)
deriving DecidableEq, Repr

/-- Class name of a visitor, standing in for the Python `str(reducer)`
interpolated into error messages. -/
def visitorName : Visitor → String
  | Visitor.singleNodeUdf _ => "SingleNodeUDFProcessGraphVisitor"
  | Visitor.tileGraph _ => "GeotrellisTileProcessGraphVisitor"

/-- Dimension names declared by the metadata of the collection: the name of
the temporal dimension and, when a band dimension exists, its name. -/
structure CubeMetadata where
  temporalName : String
  bandName : Option String
deriving DecidableEq, Repr

/-- Errors raised on the `reduce_dimension` paths. -/
inductive ReduceErr where
  /-- Models `ValueError("The run_udf process requires ... udf string")`. -/
  | valueErrorUdf
  /-- Models `ValueError("Unsupported combination of reducer %s and
  dimension %s.")`; carries the reducer text and the dimension name. -/
  | unsupportedCombination (reducer : String) (dimension : String)
  /-- Models `FeatureUnsupportedException("Reduce on dimension ... not
  supported")`; carries the offending dimension name. -/
  | unsupportedDimension (dimension : String)
  /-- Models `FeatureUnsupportedException("Reducer ... not supported")`. -/
  | unsupportedReducer (reducer : String)
  /-- Models the exception raised by accessing `metadata.band_dimension`
  when no band dimension is declared. -/
  | metadataError
deriving DecidableEq, Repr

/-- The dispatch outcome of `reduce_dimension`: which path received the
request, or `noneResult` when the function falls through every branch and
returns the Python value None. -/
inductive ReduceResult where
  | applySpatiotemporal (udf : String)
  | applyTilesBands (udf : String)
  | reduceBands
  | reduceTemporal (normalized : String)
  | noneResult
deriving DecidableEq, Repr

/-- Models `_normalize_temporal_reducer`: reject a dimension other than the
temporal one, normalize the spelling of the six built-in reducers, reject
anything else. -/
def normalize_temporal_reducer (md : CubeMetadata) (dimension reducer : String) :
    Except ReduceErr String :=
  if dimension ≠ md.temporalName then
    Except.error (ReduceErr.unsupportedDimension dimension)
  else if ["MIN", "MAX", "SUM", "MEAN", "VARIANCE"].contains reducer.toUpper then
    Except.ok reducer.toLower.capitalize
  else if reducer.toUpper = "SD" then
    Except.ok "StandardDeviation"
  else
    Except.error (ReduceErr.unsupportedReducer reducer)

/-- True when the metadata declares a band dimension whose name is
`dimension`, models `metadata.has_band_dimension() and dimension ==
metadata.band_dimension.name`. -/
def bandDimMatch (md : CubeMetadata) (dimension : String) : Bool :=
  match md.bandName with
  | some bn => dimension = bn
  | none => false

/-- Models the dispatch logic of `reduce_dimension` (the body up to the
metadata update, which no claim concerns). The branch structure mirrors the
Python if/elif chain; note that a `SingleNodeUDFProcessGraphVisitor` whose
dimension matches neither the temporal nor the band dimension leaves
`result_collection` as None, which the function then returns. -/
def reduce_dimension (md : CubeMetadata) (dimension : String) (reducer : Visitor) :
    Except ReduceErr ReduceResult :=
  match reducer with
  | Visitor.singleNodeUdf udfOpt =>
    match udfOpt with
    | none => Except.error ReduceErr.valueErrorUdf
    | some udf =>
      if dimension = md.temporalName then
        Except.ok (ReduceResult.applySpatiotemporal udf)
      else
        match md.bandName with
        | none => Except.error ReduceErr.metadataError
        | some bn =>
          if dimension = bn then Except.ok (ReduceResult.applyTilesBands udf)
          else Except.ok ReduceResult.noneResult
  | Visitor.tileGraph procs =>
    if bandDimMatch md dimension then
      Except.ok ReduceResult.reduceBands
    else if procs.length = 1 then
      match normalize_temporal_reducer md dimension (procs.getLastD "") with
      | Except.error e => Except.error e
      | Except.ok nr => Except.ok (ReduceResult.reduceTemporal nr)
    else
      Except.error (ReduceErr.unsupportedCombination (visitorName reducer) dimension)

/-! ### The `apply_neighborhood` validations -/

/-- Models one element of the `size` or `overlap` argument lists: a dict
with a dimension name, a value and an optional unit. -/
structure SizeEntry where
  dimension : String
  value : Int
  unit : Option String
deriving DecidableEq, Repr

/-- Validation errors of `apply_neighborhood`, named after the error
taxonomy of the specification. -/
inductive NbErr where
  | invalidSpatialDims
  | invalidUnit
  | windowTooSmall
deriving DecidableEq, Repr

/-- Models the dict comprehension `{e['dimension']: e for e in l}` followed
by a `.get(d)`: the last entry for a dimension wins. -/
def dictGet (l : List SizeEntry) (d : String) : Option SizeEntry :=
  (l.filter (fun e => e.dimension = d)).getLast?

/-- Models `size_dict.get(name, {}).get('unit', None)`. -/
def entryUnit (l : List SizeEntry) (d : String) : Option String :=
  match dictGet l d with
  | none => none
  | some e => e.unit

/-- Validation sequence of `apply_neighborhood` once the two spatial
dimension names x and y are in hand, in source order: spatial window sizes
in pixels, window sizes at least 32, overlaps in pixels (a missing overlap
entry defaults to 0 pixels). On success it returns the window sizes and
overlaps that are passed on to the retile call. -/
def apply_neighborhood_validate_xy (x y : String) (size overlap : List SizeEntry) :
    Except NbErr (Int × Int × Int × Int) :=
  if entryUnit size x ≠ some "px" ∨ entryUnit size y ≠ some "px" then
    Except.error NbErr.invalidUnit
  else if ((dictGet size x).map SizeEntry.value).getD 0 < 32 ∨
      ((dictGet size y).map SizeEntry.value).getD 0 < 32 then
    Except.error NbErr.windowTooSmall
  else if ((dictGet overlap x).getD ⟨x, 0, some "px"⟩).unit ≠ some "px" ∨
      ((dictGet overlap y).getD ⟨y, 0, some "px"⟩).unit ≠ some "px" then
    Except.error NbErr.invalidUnit
  else
    Except.ok (((dictGet size x).map SizeEntry.value).getD 0,
               ((dictGet size y).map SizeEntry.value).getD 0,
               ((dictGet overlap x).getD ⟨x, 0, some "px"⟩).value,
               ((dictGet overlap y).getD ⟨y, 0, some "px"⟩).value)

/-- Models the validation prefix of `apply_neighborhood`: the metadata must
declare exactly two spatial dimensions, then the window and overlap
validations of `apply_neighborhood_validate_xy` run in source order. -/
def apply_neighborhood_validate (spatialDims : List String)
    (size overlap : List SizeEntry) : Except NbErr (Int × Int × Int × Int) :=
  match spatialDims with
  | [x, y] => apply_neighborhood_validate_xy x y size overlap
  | _ => Except.error NbErr.invalidSpatialDims

/-- Models `apply_neighborhood` up to and including the retile call: the
retile primitive (an external JVM operation) is abstracted as the function
`retile` and is only reached when every validation passed. -/
def apply_neighborhood_model {r : Type} (retile : Int → Int → Int → Int → r)
    (spatialDims : List String) (size overlap : List SizeEntry) :
    Except NbErr r :=
  match apply_neighborhood_validate spatialDims size overlap with
  | Except.error e => Except.error e
  | Except.ok (sx, sy, ox, oy) => Except.ok (retile sx sy ox oy)

/-! ### The stitching engine (`_collect_as_xarray.stitch_at_time`) -/

/-- Pixel window, a tuple (xmin, ymin, width, height) in the source. -/
structure Win where
  x0 : Int
  y0 : Int
  w : Int
  h : Int
deriving DecidableEq, Repr

/-- Tile as seen by the stitching code: a cell accessor indexed by band,
row and column, the pixel shape, and a nodata value. Integer cell values
suffice for the claims about stitching. -/
structure RTile where
  cells : Nat → Int → Int → Int
  rows : Int
  cols : Int
  no_data : Int

/-- Models one iteration of the block loop of `stitch_at_time`: the key is
row-flipped (`nyblk - row`), the destination offset is computed from the
flipped key, and only pixels in the intersection of the tile range with the
destination window are overwritten. The window is indexed by band and by
array coordinates px, py relative to the crop window origin; the cell read
from the tile reverses the y direction inside the block, mirroring the
reversed `iyind` of the source. -/
def placeTile (nyblk : Int) (cw : Win) (bw bh : Int) (kt : SpatialKey × RTile)
    (wnd : Nat → Int → Int → Int) : Nat → Int → Int → Int :=
  fun b px py =>
    let x := cw.x0 + px
    let y := cw.y0 + py
    let fcol := kt.1.col
    let frow := nyblk - kt.1.row
    if fcol * bw ≤ x ∧ x < fcol * bw + bw ∧ frow * bh ≤ y ∧ y < frow * bh + bh
        ∧ 0 ≤ px ∧ px < cw.w ∧ 0 ≤ py ∧ py < cw.h then
      kt.2.cells b (frow * bh + bh - 1 - y) (x - fcol * bw)
    else
      wnd b px py

/-- Models `stitch_at_time` for one instant group: block sizes are read from
the first tile, `nyblk` is derived from the layout window, the destination
buffer starts filled with the nodata value of the first tile (the
`np.empty` branch for a falsy nodata is modelled by the same expression,
since no claim reads an unassigned pixel), and every tile of the group is
copied in. -/
def stitch_at_time (cw lw : Win) (tiles : List (SpatialKey × RTile)) :
    Nat → Int → Int → Int :=
  match tiles with
  | [] => fun _ _ _ => 0
  | t0 :: _ =>
    let bw := t0.2.rows
    let bh := t0.2.cols
    let nyblk := lw.h / bh - 1
    tiles.foldl (fun wnd kt => placeTile nyblk cw bw bh kt wnd)
      (fun _ _ _ => t0.2.no_data)

/-- Models the no-crop pixel window of `_collect_as_xarray`, derived from
the key bounds of the layer. -/
def cropWinFromBounds (minCol minRow maxCol maxRow tileCols tileRows : Int) : Win :=
  ⟨minCol * tileCols, minRow * tileRows,
   (maxCol + 1 - minCol) * tileCols, (maxRow + 1 - minRow) * tileRows⟩

/-- Models the full layout pixel window of `_collect_as_xarray`. -/
def layoutWinOf (layoutCols layoutRows tileCols tileRows : Int) : Win :=
  ⟨0, 0, layoutCols * tileCols, layoutRows * tileRows⟩

/-- Distinct literal fill value for the grid tile at column c, row r. -/
def c5fill (c r : Int) : Int :=
  10 * c + r

/-- A 4 by 4 single-band tile whose every cell holds `c5fill c r`. -/
def c5tile (c r : Int) : RTile :=
  ⟨fun _ _ _ => c5fill c r, 4, 4, -99⟩

/-- The 2 by 2 grid of 4 by 4 tiles of the stitching scenario. -/
def c5tiles : List (SpatialKey × RTile) :=
  [(⟨0, 0⟩, c5tile 0 0), (⟨1, 0⟩, c5tile 1 0),
   (⟨0, 1⟩, c5tile 0 1), (⟨1, 1⟩, c5tile 1 1)]

/-- Crop window of the scenario: no crop box, key bounds (0,0) to (1,1),
4 by 4 tiles. -/
def c5win : Win :=
  cropWinFromBounds 0 0 1 1 4 4

/-- Layout window of the scenario: a 2 by 2 layout of 4 by 4 tiles. -/
def c5lw : Win :=
  layoutWinOf 2 2 4 4

/-- The stitched window of the scenario. -/
def c5stitch : Nat → Int → Int → Int :=
  stitch_at_time c5win c5lw c5tiles

/-! ### The zonal aggregator (`polygonal_mean_timeseries`) -/

/-- A pixel value as the aggregator sees it: either NaN or a (rational)
number. -/
inductive CellVal where
  | nan
  | val (q : Rat)
deriving DecidableEq, Repr

/-- Models the pixel mask `(~np.isnan(grid)) & (grid != no_data)`. -/
def validCell (no_data : Rat) : CellVal → Bool
  | CellVal.nan => false
  | CellVal.val q => q ≠ no_data

/-- Numeric value of a pixel (only ever used on valid pixels). -/
def cellValue : CellVal → Rat
  | CellVal.nan => 0
  | CellVal.val q => q

/-- Models `grid[without_no_data].sum()` for one band. -/
def bandSum (nd : Rat) (g : List CellVal) : Rat :=
  ((g.filter (validCell nd)).map cellValue).sum

/-- Models `without_no_data.sum()` for one band. -/
def bandCount (nd : Rat) (g : List CellVal) : Nat :=
  (g.filter (validCell nd)).length

/-- Models `combine_cells`: an empty accumulator is first widened to one
(0, 0) pair per band, then the sum and count of the valid pixels of every
band of the tile are added to the accumulator. -/
def combine_cells (nd : Rat) (acc : List (Rat × Nat)) (cells : List (List CellVal)) :
    List (Rat × Nat) :=
  let acc0 := if acc.isEmpty then List.replicate cells.length ((0 : Rat), (0 : Nat)) else acc
  ((acc0.zip cells).map (fun p => (p.1.1 + bandSum nd p.2, p.1.2 + bandCount nd p.2)))
    ++ acc0.drop cells.length

/-- Models `combine_values`: pairwise addition of two per-band (sum, count)
accumulators (entries of the first list beyond the length of the second are
kept, as in the Python loop over `range(len(l2))`). -/
def combine_values (l1 l2 : List (Rat × Nat)) : List (Rat × Nat) :=
  ((l1.zip l2).map (fun p => (p.1.1 + p.2.1, p.1.2 + p.2.2))) ++ l1.drop l2.length

/-- Models `to_mean`. -/
def to_mean (v : Rat × Nat) : Rat :=
  v.1 / v.2

/-- Per-band (sum, count) statistics of a single tile. -/
def tileAcc (nd : Rat) (cells : List (List CellVal)) : List (Rat × Nat) :=
  cells.map (fun g => (bandSum nd g, bandCount nd g))

/-- The masked 2 by 2 pixel neighbourhood of the zonal scenario: two valid
pixels 10 and 20 and two nodata pixels (nodata sentinel 255). -/
def c9grid : List CellVal :=
  [CellVal.val 10, CellVal.val 20, CellVal.val 255, CellVal.val 255]

/-- A concrete spatiotemporal level used to instantiate grouping theorems:
two spatial keys, two instants each, instants deliberately out of order. -/
def c1level : List (SpaceTimeKey × Tile Unit) :=
  [(⟨0, 0, 5⟩, ⟨(), CellType.uint8, 7⟩), (⟨0, 0, 3⟩, ⟨(), CellType.uint8, 7⟩),
   (⟨1, 0, 5⟩, ⟨(), CellType.uint8, 7⟩), (⟨1, 0, 3⟩, ⟨(), CellType.uint8, 7⟩)]

/-! ### Theorems -/

theorem byInstant_sorted {a : Type} (l : List (SpaceTimeKey × Tile a)) :
    List.Sorted (byInstant (a := a)) (sortByInstant l) := by
  haveI : IsTotal (SpaceTimeKey × Tile a) byInstant := ⟨fun x y => Int.le_total _ _⟩
  haveI : IsTrans (SpaceTimeKey × Tile a) byInstant := ⟨fun _ _ _ h1 h2 => le_trans h1 h2⟩
  exact List.sorted_insertionSort byInstant l

theorem sortByInstant_perm {a : Type} (l : List (SpaceTimeKey × Tile a)) :
    (sortByInstant l).Perm l :=
  List.perm_insertionSort byInstant l

/-- C1: for every spatiotemporal level, `apply_tiles_spatiotemporal` groups
the (Key, Tile) pairs of the level by spatial key across all instants, so a
level with N distinct spatial keys and M pairs per spatial key yields
exactly N groups of size M; within each group the tiles are sorted by
ascending instant before being stacked into a (t, bands, x, y) array whose
t coordinate equals the sorted sequence of the group instants. -/
theorem c1_spatiotemporal_grouping {a : Type} (l : List (SpaceTimeKey × Tile a))
    (N M : Nat)
    (hN : ((l.map (fun t => spatialOf t.1)).dedup).length = N)
    (hM : ∀ k ∈ (l.map (fun t => spatialOf t.1)).dedup,
      (l.filter (fun t => spatialOf t.1 = k)).length = M) :
    (groupBySpatialKey l).length = N ∧
    ∀ g ∈ groupBySpatialKey l,
      g.2.length = M ∧
      (st_inputCube g.2).dims = ["t", "bands", "x", "y"] ∧
      (st_inputCube g.2).tcoords = (sortByInstant g.2).map (fun t => t.1.instant) ∧
      List.Sorted (· ≤ ·) (st_inputCube g.2).tcoords ∧
      (st_inputCube g.2).tcoords.Perm (g.2.map (fun t => t.1.instant)) := by
  constructor
  · simpa [groupBySpatialKey] using hN
  · intro g hg
    rw [groupBySpatialKey, List.mem_map] at hg
    obtain ⟨k, hk, rfl⟩ := hg
    refine ⟨by simpa using hM k hk, rfl, rfl, ?_, ?_⟩
    · exact List.Pairwise.map _ (fun _ _ hxy => hxy)
        (byInstant_sorted (l.filter (fun t => spatialOf t.1 = k)))
    · exact (sortByInstant_perm (l.filter (fun t => spatialOf t.1 = k))).map _

/-- Witness for C1 on a concrete level of 2 spatial keys times 2 instants. -/
theorem c1_witness :
    (groupBySpatialKey c1level).length = 2 ∧
    ∀ g ∈ groupBySpatialKey c1level,
      g.2.length = 2 ∧
      (st_inputCube g.2).dims = ["t", "bands", "x", "y"] ∧
      (st_inputCube g.2).tcoords = (sortByInstant g.2).map (fun t => t.1.instant) ∧
      List.Sorted (· ≤ ·) (st_inputCube g.2).tcoords ∧
      (st_inputCube g.2).tcoords.Perm (g.2.map (fun t => t.1.instant)) :=
  c1_spatiotemporal_grouping c1level 2 2 (by decide) (by decide)

theorem mapCollect_identity_tilefunction {a : Type} [Inhabited a] (s : String) :
    ∀ (l : List (SpaceTimeKey × Tile a)),
      mapCollect (apply_tiles_tilefunction ⟨s, true⟩ identity_udf) l = Except.ok l
  | [] => rfl
  | kt :: rest => by
    have ih := mapCollect_identity_tilefunction s rest
    simp [mapCollect, apply_tiles_tilefunction, run_user_code, identity_udf,
      tile_to_datacube_single, checkSingleCube, Except.bind, Except.map, ih]

/-- C4: `apply_tiles` with the identity user function produces exactly the
input level coerced to the floating-point cell type: same keys, cells equal
to the coerced input cells, cell type and nodata value inherited from the
coerced input tile. -/
theorem c4_apply_tiles_identity {a : Type} [Inhabited a] (coerce : a → a)
    (s : String) (level : List (SpaceTimeKey × Tile a)) :
    apply_tiles coerce ⟨s, true⟩ identity_udf level =
      Except.ok (convert_data_type_level coerce level) := by
  unfold apply_tiles
  exact mapCollect_identity_tilefunction s (convert_data_type_level coerce level)

/-- C10: in grouped mode every output tile is created with cell type
FLOAT32 regardless of the result payload, and its nodata value is copied
from the earliest-instant input tile of the group, that is the first tile
after sorting the group by ascending instant. -/
theorem c10_grouped_celltype_nodata {a : Type} [Inhabited a]
    (u : UdfCode) (sem : XCube a → List (XCube a)) (now : Int)
    (g : SpatialKey × List (SpaceTimeKey × Tile a))
    (outs : List (SpaceTimeKey × Tile a))
    (h : st_tilefunction u sem now g = Except.ok outs) :
    ∀ kt ∈ outs,
      kt.2.cell_type = CellType.float32 ∧
      kt.2.no_data_value = ((sortByInstant g.2).headI).2.no_data_value ∧
      ∀ t ∈ g.2, ((sortByInstant g.2).headI).1.instant ≤ t.1.instant := by
  unfold st_tilefunction at h
  cases hs : sortByInstant g.2 with
  | nil => rw [hs] at h; simp [headE, Except.bind] at h
  | cons t0 rest =>
    rw [hs] at h
    simp only [headE, Except.bind] at h
    have hmin : ∀ t ∈ g.2, t0.1.instant ≤ t.1.instant := by
      intro t ht
      have hmem : t ∈ sortByInstant g.2 := by
        unfold sortByInstant
        exact (List.mem_insertionSort byInstant).2 ht
      have hsorted := byInstant_sorted g.2
      rw [hs] at hmem hsorted
      rcases List.mem_cons.1 hmem with rfl | hmem'
      · exact le_refl _
      · exact List.rel_of_sorted_cons hsorted t hmem'
    cases hv : run_user_code u sem (st_inputCube g.2) with
    | error e => rw [hv] at h; simp at h
    | ok cubes =>
      rw [hv] at h
      match cubes with
      | [] => simp [checkSingleCube, Except.map] at h
      | res :: res2 :: more => simp [checkSingleCube, Except.map] at h
      | [res] =>
        simp only [checkSingleCube, Except.map] at h
        obtain rfl := Except.ok.inj h
        intro kt hkt
        unfold st_make_tiles at hkt
        by_cases ht : "t" ∈ res.dims
        · rw [if_pos ht] at hkt
          rw [List.mem_map] at hkt
          obtain ⟨ts, _, rfl⟩ := hkt
          exact ⟨rfl, by simp [hs], by simpa [hs] using hmin⟩
        · rw [if_neg ht] at hkt
          rcases List.mem_singleton.1 hkt with rfl
          exact ⟨rfl, by simp [hs], by simpa [hs] using hmin⟩

/-- Witness for C10 on a one-key, two-instant group with the identity user
function: the first output tile is FLOAT32 and carries the nodata value of
the earliest-instant input tile. -/
theorem c10_witness :
    (⟨(), CellType.float32, 9⟩ : Tile Unit).cell_type = CellType.float32 ∧
    (⟨(), CellType.float32, 9⟩ : Tile Unit).no_data_value =
      ((sortByInstant [((⟨0, 0, 5⟩ : SpaceTimeKey), (⟨(), CellType.uint8, 7⟩ : Tile Unit)),
                       (⟨0, 0, 3⟩, ⟨(), CellType.uint8, 9⟩)]).headI).2.no_data_value := by
  have h := c10_grouped_celltype_nodata (a := Unit) ⟨"c", true⟩ identity_udf 99
    (⟨0, 0⟩, [(⟨0, 0, 5⟩, ⟨(), CellType.uint8, 7⟩), (⟨0, 0, 3⟩, ⟨(), CellType.uint8, 9⟩)])
    [(⟨0, 0, 3⟩, ⟨(), CellType.float32, 9⟩), (⟨0, 0, 5⟩, ⟨(), CellType.float32, 9⟩)] rfl
    (⟨0, 0, 3⟩, ⟨(), CellType.float32, 9⟩) (by simp)
  exact ⟨h.1, h.2.1⟩

/-- C7: in both UDF modes the pipeline fails with the UDF contract
violation error exactly when the user function returns a number of result
datacubes different from one; with exactly one result no error is raised
and tiles are reconstructed. -/
theorem c7_udf_contract {a : Type} [Inhabited a] (s : String)
    (sem : XCube a → List (XCube a)) (kt : SpaceTimeKey × Tile a)
    (g : SpatialKey × List (SpaceTimeKey × Tile a)) (now : Int)
    (hg : sortByInstant g.2 ≠ []) :
    (apply_tiles_tilefunction ⟨s, true⟩ sem kt = Except.error Err.udfContractViolation
      ↔ (sem (tile_to_datacube_single kt.2.cells)).length ≠ 1) ∧
    ((sem (tile_to_datacube_single kt.2.cells)).length = 1 →
      ∃ t, apply_tiles_tilefunction ⟨s, true⟩ sem kt = Except.ok (kt.1, t)) ∧
    (st_tilefunction ⟨s, true⟩ sem now g = Except.error Err.udfContractViolation
      ↔ (sem (st_inputCube g.2)).length ≠ 1) ∧
    ((sem (st_inputCube g.2)).length = 1 →
      ∃ ts, st_tilefunction ⟨s, true⟩ sem now g = Except.ok ts) := by
  have h1 : run_user_code ⟨s, true⟩ sem (tile_to_datacube_single kt.2.cells) =
      Except.ok (sem (tile_to_datacube_single kt.2.cells)) := rfl
  have h2 : run_user_code ⟨s, true⟩ sem (st_inputCube g.2) =
      Except.ok (sem (st_inputCube g.2)) := rfl
  obtain ⟨t0, rest, hs⟩ : ∃ t0 rest, sortByInstant g.2 = t0 :: rest := by
    cases hc : sortByInstant g.2 with
    | nil => exact absurd hc hg
    | cons t0 rest => exact ⟨t0, rest, rfl⟩
  refine ⟨?_, ?_, ?_, ?_⟩
  · unfold apply_tiles_tilefunction
    rw [h1]
    match hsem : sem (tile_to_datacube_single kt.2.cells) with
    | [] => simp [checkSingleCube, Except.bind, Except.map]
    | [res] => simp [checkSingleCube, Except.bind, Except.map]
    | res :: res2 :: more => simp [checkSingleCube, Except.bind, Except.map]
  · intro hone
    unfold apply_tiles_tilefunction
    rw [h1]
    match hsem : sem (tile_to_datacube_single kt.2.cells) with
    | [] => rw [hsem] at hone; simp at hone
    | [res] => exact ⟨_, rfl⟩
    | res :: res2 :: more => rw [hsem] at hone; simp at hone
  · unfold st_tilefunction
    rw [hs, h2]
    match hsem : sem (st_inputCube g.2) with
    | [] => simp [headE, checkSingleCube, Except.bind, Except.map]
    | [res] => simp [headE, checkSingleCube, Except.bind, Except.map]
    | res :: res2 :: more => simp [headE, checkSingleCube, Except.bind, Except.map]
  · intro hone
    unfold st_tilefunction
    rw [hs, h2]
    match hsem : sem (st_inputCube g.2) with
    | [] => rw [hsem] at hone; simp at hone
    | [res] => exact ⟨_, rfl⟩
    | res :: res2 :: more => rw [hsem] at hone; simp at hone

/-- Witness for C7 on a one-tile input and one-tile group with the identity
user function. -/
theorem c7_witness :
    (apply_tiles_tilefunction (a := Unit) ⟨"c", true⟩ identity_udf
        (⟨0, 0, 0⟩, ⟨(), CellType.uint8, 5⟩) = Except.error Err.udfContractViolation
      ↔ (identity_udf (tile_to_datacube_single (() : Unit))).length ≠ 1) ∧
    ((identity_udf (tile_to_datacube_single (() : Unit))).length = 1 →
      ∃ t, apply_tiles_tilefunction (a := Unit) ⟨"c", true⟩ identity_udf
        (⟨0, 0, 0⟩, ⟨(), CellType.uint8, 5⟩) = Except.ok (⟨0, 0, 0⟩, t)) ∧
    (st_tilefunction (a := Unit) ⟨"c", true⟩ identity_udf 0
        (⟨0, 0⟩, [(⟨0, 0, 1⟩, ⟨(), CellType.uint8, 5⟩)]) = Except.error Err.udfContractViolation
      ↔ (identity_udf (st_inputCube [((⟨0, 0, 1⟩ : SpaceTimeKey),
          (⟨(), CellType.uint8, 5⟩ : Tile Unit))])).length ≠ 1) ∧
    ((identity_udf (st_inputCube [((⟨0, 0, 1⟩ : SpaceTimeKey),
        (⟨(), CellType.uint8, 5⟩ : Tile Unit))])).length = 1 →
      ∃ ts, st_tilefunction (a := Unit) ⟨"c", true⟩ identity_udf 0
        (⟨0, 0⟩, [(⟨0, 0, 1⟩, ⟨(), CellType.uint8, 5⟩)]) = Except.ok ts) :=
  c7_udf_contract "c" identity_udf (⟨0, 0, 0⟩, ⟨(), CellType.uint8, 5⟩)
    (⟨0, 0⟩, [(⟨0, 0, 1⟩, ⟨(), CellType.uint8, 5⟩)]) 0 (by decide)

/-- C3 counterexample: a syntactically invalid UDF does not make the
`apply_tiles` call itself fail: the single-tile entry point performs no
eager syntax check and succeeds at call time even for ill-formed code,
refuting the claim that both UDF modes syntax-check eagerly at call
time. -/
theorem c3_counterexample :
    (UdfCode.mk "def f(:" false).wellFormed = false ∧
    apply_tiles_entry (a := Unit) id ⟨"def f(:", false⟩ identity_udf =
      Except.ok (apply_tiles id ⟨"def f(:", false⟩ identity_udf) :=
  ⟨rfl, rfl⟩

/-- C3 amended: only grouped mode (`apply_tiles_spatiotemporal`) eagerly
syntax-checks the user code at call time, before and independently of any
tile being processed; single-tile mode (`apply_tiles`) performs no eager
check and a syntactically invalid UDF there only fails once a tile is
processed. -/
theorem c3_amended {a : Type} [Inhabited a] (coerce : a → a) (u : UdfCode)
    (sem : XCube a → List (XCube a)) (now : Int) :
    (apply_tiles_spatiotemporal_entry coerce u sem now =
      if u.wellFormed then Except.ok (st_level_job coerce u sem now)
      else Except.error Err.compileError) ∧
    (apply_tiles_entry coerce u sem = Except.ok (apply_tiles coerce u sem)) ∧
    (u.wellFormed = false → ∀ (kt : SpaceTimeKey × Tile a) level,
      apply_tiles coerce u sem (kt :: level) = Except.error Err.execError) := by
  refine ⟨?_, rfl, ?_⟩
  · unfold apply_tiles_spatiotemporal_entry compileCheck
    by_cases hw : u.wellFormed
    · rw [if_pos hw, if_pos hw]
    · rw [if_neg hw, if_neg hw]
  · intro hw kt level
    simp [apply_tiles, convert_data_type_level, mapCollect, apply_tiles_tilefunction,
      run_user_code, hw, Except.bind]

/-- Witness for C3 amended: with ill-formed code, the grouped-mode call
fails immediately while the single-tile call succeeds at call time and only
fails when a tile is processed. -/
theorem c3_witness :
    apply_tiles_spatiotemporal_entry (a := Unit) id ⟨"def f(:", false⟩ identity_udf 0 =
      Except.error Err.compileError ∧
    apply_tiles (a := Unit) id ⟨"def f(:", false⟩ identity_udf
      [(⟨0, 0, 0⟩, ⟨(), CellType.uint8, 0⟩)] = Except.error Err.execError :=
  ⟨by simpa using (c3_amended (a := Unit) id ⟨"def f(:", false⟩ identity_udf 0).1,
   (c3_amended (a := Unit) id ⟨"def f(:", false⟩ identity_udf 0).2.2 rfl
     (⟨0, 0, 0⟩, ⟨(), CellType.uint8, 0⟩) []⟩

/-- C2 counterexample: a UDF reducer combined with a dimension that is
neither the temporal nor the band dimension does not raise the unsupported
combination error; `reduce_dimension` falls through every branch and
returns None. -/
theorem c2_counterexample :
    reduce_dimension ⟨"t", some "bands"⟩ "foo" (Visitor.singleNodeUdf (some "code")) =
      Except.ok ReduceResult.noneResult := by
  rfl

/-- C2 amended: a non-UDF reducer graph that matches neither the band
dimension nor the single-process built-in path fails with the unsupported
combination error naming both the reducer and the dimension; a UDF reducer
whose dimension matches neither the temporal nor the band dimension instead
returns None without raising. -/
theorem c2_amended :
    (∀ (md : CubeMetadata) (dimension : String) (procs : List String),
      bandDimMatch md dimension = false → procs.length ≠ 1 →
      reduce_dimension md dimension (Visitor.tileGraph procs) =
        Except.error (ReduceErr.unsupportedCombination
          (visitorName (Visitor.tileGraph procs)) dimension)) ∧
    (∀ (md : CubeMetadata) (dimension udf bn : String),
      md.bandName = some bn → dimension ≠ md.temporalName → dimension ≠ bn →
      reduce_dimension md dimension (Visitor.singleNodeUdf (some udf)) =
        Except.ok ReduceResult.noneResult) := by
  constructor
  · intro md dimension procs hband hlen
    simp [reduce_dimension, hband, hlen]
  · intro md dimension udf bn hbn hdt hdb
    simp [reduce_dimension, hbn, hdt, hdb]

/-- Witness for C2 amended at concrete inputs: a two-process band-algebra
graph on an unknown dimension raises the unsupported combination error, and
a UDF reducer on an unknown dimension returns None. -/
theorem c2_witness :
    reduce_dimension ⟨"t", some "bands"⟩ "foo" (Visitor.tileGraph ["min", "max"]) =
      Except.error (ReduceErr.unsupportedCombination
        (visitorName (Visitor.tileGraph ["min", "max"])) "foo") ∧
    reduce_dimension ⟨"t", some "bands"⟩ "foo" (Visitor.singleNodeUdf (some "u")) =
      Except.ok ReduceResult.noneResult :=
  ⟨c2_amended.1 ⟨"t", some "bands"⟩ "foo" ["min", "max"] (by decide) (by decide),
   c2_amended.2 ⟨"t", some "bands"⟩ "foo" "u" "bands" rfl (by decide) (by decide)⟩

/-- C8 counterexample: a single named built-in reducer on a dimension that
differs from the temporal dimension name does not necessarily fail: when
the dimension matches the band dimension name the call dispatches to the
band-algebra reducer instead of raising. -/
theorem c8_counterexample :
    reduce_dimension ⟨"t", some "bands"⟩ "bands" (Visitor.tileGraph ["min"]) =
      Except.ok ReduceResult.reduceBands := by
  rfl

/-- C8 amended: for a single named built-in reducer, a dimension name that
matches neither the band dimension (which instead dispatches to the
band-algebra path) nor the temporal dimension makes `reduce_dimension` fail
with the unsupported dimension error, before any distributed tile-store
operation is dispatched. -/
theorem c8_amended (md : CubeMetadata) (dimension : String) (procs : List String)
    (hband : bandDimMatch md dimension = false)
    (hlen : procs.length = 1)
    (hdim : dimension ≠ md.temporalName) :
    reduce_dimension md dimension (Visitor.tileGraph procs) =
      Except.error (ReduceErr.unsupportedDimension dimension) := by
  simp [reduce_dimension, normalize_temporal_reducer, hband, hlen, hdim]

/-- Witness for C8 amended: reducing with min over the non-existent
dimension gender fails with the unsupported dimension error. -/
theorem c8_witness :
    reduce_dimension ⟨"t", some "bands"⟩ "gender" (Visitor.tileGraph ["min"]) =
      Except.error (ReduceErr.unsupportedDimension "gender") :=
  c8_amended ⟨"t", some "bands"⟩ "gender" ["min"] (by decide) rfl (by decide)

/-- C6 counterexample: with 16 by 16 pixel window sizes and overlaps given
in metres, `apply_neighborhood` raises the window-too-small error rather
than the invalid-unit error the claim demands for a non-pixel overlap: the
overlap-unit check runs only after the window-size minimum check. -/
theorem c6_counterexample :
    apply_neighborhood_validate ["x", "y"]
      [⟨"x", 16, some "px"⟩, ⟨"y", 16, some "px"⟩]
      [⟨"x", 8, some "m"⟩, ⟨"y", 8, some "m"⟩] =
      Except.error NbErr.windowTooSmall ∧
    NbErr.windowTooSmall ≠ NbErr.invalidUnit := by
  exact ⟨rfl, by decide⟩

/-- C6 amended: `apply_neighborhood` fails when the metadata does not
declare exactly two spatial dimensions; fails with the invalid-unit error
when a spatial window size is not given in pixels, or when the window sizes
are valid (pixel unit, at least 32) but an overlap is not given in pixels;
fails with the window-too-small error when the window sizes are in pixels
and one of them is below 32 (this check precedes the overlap-unit check);
every such failure happens before the retile call. -/
theorem c6_amended {r : Type} (retile : Int → Int → Int → Int → r)
    (x y : String) (size overlap : List SizeEntry) :
    (∀ dims : List String, dims.length ≠ 2 →
      apply_neighborhood_validate dims size overlap =
        Except.error NbErr.invalidSpatialDims) ∧
    (entryUnit size x ≠ some "px" ∨ entryUnit size y ≠ some "px" →
      apply_neighborhood_validate [x, y] size overlap =
        Except.error NbErr.invalidUnit) ∧
    (entryUnit size x = some "px" → entryUnit size y = some "px" →
      (((dictGet size x).map SizeEntry.value).getD 0 < 32 ∨
        ((dictGet size y).map SizeEntry.value).getD 0 < 32) →
      apply_neighborhood_validate [x, y] size overlap =
        Except.error NbErr.windowTooSmall) ∧
    (entryUnit size x = some "px" → entryUnit size y = some "px" →
      32 ≤ ((dictGet size x).map SizeEntry.value).getD 0 →
      32 ≤ ((dictGet size y).map SizeEntry.value).getD 0 →
      (((dictGet overlap x).getD ⟨x, 0, some "px"⟩).unit ≠ some "px" ∨
        ((dictGet overlap y).getD ⟨y, 0, some "px"⟩).unit ≠ some "px") →
      apply_neighborhood_validate [x, y] size overlap =
        Except.error NbErr.invalidUnit) ∧
    (∀ (e : NbErr) (dims : List String),
      apply_neighborhood_validate dims size overlap = Except.error e →
      apply_neighborhood_model retile dims size overlap = Except.error e) := by
  refine ⟨?_, ?_, ?_, ?_, ?_⟩
  · intro dims hd
    match dims with
    | [] => rfl
    | [d] => rfl
    | [d1, d2] => simp at hd
    | d1 :: d2 :: d3 :: ds => rfl
  · intro hu
    show apply_neighborhood_validate_xy x y size overlap = _
    unfold apply_neighborhood_validate_xy
    rw [if_pos hu]
  · intro hux huy hsmall
    show apply_neighborhood_validate_xy x y size overlap = _
    unfold apply_neighborhood_validate_xy
    rw [if_neg (by simp [hux, huy]), if_pos hsmall]
  · intro hux huy hsx hsy hov
    show apply_neighborhood_validate_xy x y size overlap = _
    unfold apply_neighborhood_validate_xy
    rw [if_neg (by simp [hux, huy]), if_neg (by omega), if_pos hov]
  · intro e dims hval
    unfold apply_neighborhood_model
    rw [hval]

/-- Witness for C6 amended: a 16-pixel window fails with the
window-too-small error, and the failure propagates instead of any retile
result. -/
theorem c6_witness :
    apply_neighborhood_validate ["x", "y"]
      [⟨"x", 16, some "px"⟩, ⟨"y", 16, some "px"⟩] [] =
      Except.error NbErr.windowTooSmall ∧
    apply_neighborhood_model (fun a b c d => (a, b, c, d)) ["x", "y"]
      [⟨"x", 16, some "px"⟩, ⟨"y", 16, some "px"⟩] [] =
      Except.error NbErr.windowTooSmall := by
  have h := c6_amended (fun a b c d : Int => (a, b, c, d)) "x" "y"
    [⟨"x", 16, some "px"⟩, ⟨"y", 16, some "px"⟩] []
  have h1 := h.2.2.1 (by decide) (by decide) (by decide)
  exact ⟨h1, h.2.2.2.2 NbErr.windowTooSmall ["x", "y"] h1⟩

/-- C5: stitching the no-crop 2 by 2 grid of 4 by 4 tiles produces an
8 by 8 window; the destination offset of every tile is computed from its
key with the row index flipped, so array position (px, py) shows the fill
value of the tile at column px divided by 4 and key row 1 minus py divided
by 4, and in particular the top-left pixel (0, 0) shows the tile with key
column 0, row 1. Since only the intersection of each tile range with the
window is copied, each tile occupies exactly its own 4 by 4 block. -/
theorem c5_stitch_orientation :
    c5win = ⟨0, 0, 8, 8⟩ ∧
    c5stitch 0 0 0 = c5fill 0 1 ∧
    (∀ px py : Fin 8,
      c5stitch 0 (px.val : Int) (py.val : Int) =
        c5fill ((px.val : Int) / 4) (1 - (py.val : Int) / 4)) := by
  refine ⟨by decide, by decide, by decide⟩

theorem combine_values_cons (p q : Rat × Nat) (l1 l2 : List (Rat × Nat)) :
    combine_values (p :: l1) (q :: l2) =
      (p.1 + q.1, p.2 + q.2) :: combine_values l1 l2 := rfl

theorem combine_values_length : ∀ (l1 l2 : List (Rat × Nat)), l1.length = l2.length →
    (combine_values l1 l2).length = l1.length
  | [], [], _ => rfl
  | [], _ :: _, h => by simp at h
  | _ :: _, [], h => by simp at h
  | p :: l1, q :: l2, h => by
    rw [combine_values_cons]
    simp only [List.length_cons]
    rw [combine_values_length l1 l2 (by simpa using h)]

theorem combine_values_comm : ∀ (l1 l2 : List (Rat × Nat)), l1.length = l2.length →
    combine_values l1 l2 = combine_values l2 l1
  | [], [], _ => rfl
  | [], _ :: _, h => by simp at h
  | _ :: _, [], h => by simp at h
  | p :: l1, q :: l2, h => by
    rw [combine_values_cons, combine_values_cons,
      combine_values_comm l1 l2 (by simpa using h), add_comm p.1 q.1, add_comm p.2 q.2]

theorem combine_values_assoc : ∀ (l1 l2 l3 : List (Rat × Nat)),
    l1.length = l2.length → l2.length = l3.length →
    combine_values (combine_values l1 l2) l3 = combine_values l1 (combine_values l2 l3)
  | [], [], [], _, _ => rfl
  | [], _ :: _, _, h, _ => by simp at h
  | _ :: _, [], _, h, _ => by simp at h
  | _ :: _, _ :: l2, [], _, h2 => by simp at h2
  | p :: l1, q :: l2, w :: l3, h1, h2 => by
    rw [combine_values_cons, combine_values_cons, combine_values_cons, combine_values_cons,
      combine_values_assoc l1 l2 l3 (by simpa using h1) (by simpa using h2),
      add_assoc p.1 q.1 w.1, add_assoc p.2 q.2 w.2]

theorem replicate_length_zip {b c : Type} (z : c) : ∀ (l : List b),
    (List.replicate l.length z).zip l = l.map (fun e => (z, e))
  | [] => rfl
  | e :: l => by
    simp [List.replicate_succ, replicate_length_zip z l]

theorem combine_cells_nil_acc (nd : Rat) (cells : List (List CellVal)) :
    combine_cells nd [] cells = tileAcc nd cells := by
  unfold combine_cells tileAcc
  simp [replicate_length_zip, List.map_map, List.drop_eq_nil_of_le]

theorem combine_cells_eq (nd : Rat) (acc : List (Rat × Nat)) (cells : List (List CellVal))
    (h : acc.length = cells.length) :
    combine_cells nd acc cells = combine_values acc (tileAcc nd cells) := by
  cases acc with
  | nil =>
    cases cells with
    | nil => rfl
    | cons g cs => simp at h
  | cons p acc' =>
    unfold combine_cells combine_values tileAcc
    simp only [List.isEmpty_cons, Bool.false_eq_true, if_false, List.length_map]
    rw [List.zip_map_right, List.map_map]
    rfl

theorem foldl_combine_cells (nd : Rat) (nb : Nat) :
    ∀ (ts : List (List (List CellVal))) (acc : List (Rat × Nat)),
      acc.length = nb → (∀ c ∈ ts, c.length = nb) →
      List.foldl (combine_cells nd) acc ts =
        List.foldl combine_values acc (ts.map (tileAcc nd))
  | [], _, _, _ => rfl
  | c :: ts, acc, ha, hts => by
    simp only [List.foldl_cons, List.map_cons]
    rw [combine_cells_eq nd acc c (by rw [ha, hts c (List.mem_cons_self c ts)])]
    exact foldl_combine_cells nd nb ts (combine_values acc (tileAcc nd c))
      (by
        rw [combine_values_length acc (tileAcc nd c)
          (by simp only [tileAcc, List.length_map]; rw [ha, hts c (List.mem_cons_self c ts)]),
          ha])
      (fun d hd => hts d (List.mem_cons_of_mem c hd))

/-- C9: the zonal mean aggregator computes for every band the pair of the
sum and the count over exactly the pixels that are neither nodata nor NaN;
tiles of a group are folded through `combine_cells`, which equals folding
the per-tile (sum, count) statistics with the commutative and associative
`combine_values`; and the 2 by 2 scenario with valid pixels 10 and 20 and
two nodata pixels yields mean 15. -/
theorem c9_zonal_mean :
    (∀ l1 l2 : List (Rat × Nat), l1.length = l2.length →
      combine_values l1 l2 = combine_values l2 l1) ∧
    (∀ l1 l2 l3 : List (Rat × Nat), l1.length = l2.length → l2.length = l3.length →
      combine_values (combine_values l1 l2) l3 =
        combine_values l1 (combine_values l2 l3)) ∧
    (∀ (nd : Rat) (cells : List (List CellVal)),
      combine_cells nd [] cells = tileAcc nd cells) ∧
    (∀ (nd : Rat) (nb : Nat) (t : List (List CellVal)) (ts : List (List (List CellVal))),
      t.length = nb → (∀ c ∈ ts, c.length = nb) →
      List.foldl (combine_cells nd) [] (t :: ts) =
        List.foldl combine_values (tileAcc nd t) (ts.map (tileAcc nd))) ∧
    combine_cells 255 [] [c9grid] = [(30, 2)] ∧
    to_mean (30, 2) = 15 := by
  refine ⟨combine_values_comm, combine_values_assoc, combine_cells_nil_acc, ?_, ?_, ?_⟩
  · intro nd nb t ts ht hts
    rw [List.foldl_cons, combine_cells_nil_acc nd t]
    exact foldl_combine_cells nd nb ts (tileAcc nd t)
      (by simp only [tileAcc, List.length_map]; exact ht) hts
  · norm_num [combine_cells, c9grid, bandSum, bandCount, validCell, cellValue, List.filter]
  · norm_num [to_mean]

/-- Witness for C9: commutativity, associativity and the fold
characterization instantiated at concrete accumulators and the scenario
tile. -/
theorem c9_witness :
    combine_values [(3, 1)] [(4, 2)] = combine_values [(4, 2)] [(3, 1)] ∧
    combine_values (combine_values [(3, 1)] [(4, 2)]) [(5, 7)] =
      combine_values [(3, 1)] (combine_values [(4, 2)] [(5, 7)]) ∧
    List.foldl (combine_cells 255) [] [[c9grid]] =
      List.foldl combine_values (tileAcc 255 [c9grid]) [] :=
  ⟨c9_zonal_mean.1 [(3, 1)] [(4, 2)] rfl,
   c9_zonal_mean.2.1 [(3, 1)] [(4, 2)] [(5, 7)] rfl rfl,
   c9_zonal_mean.2.2.2.1 255 1 [c9grid] [] rfl (by simp)⟩

end GeoPySpark
